import Mathlib

/-!
Verification of the nubank-ofx-preview date-range filter, charge normalizer
and OFX renderer against their natural-language specification.

The date filter is embedded from `stuff.js` (the revision exercised by the
repository's mocha test suite: the `open` boundary falls back to a comparison
against today's resolved date, and `parseDate` tries a strict `moment` parse
and then falls back to the permissive `chrono` phrase parser when the moment
value is invalid).  The normalizer `toItem` and the renderer
`ofxItem`/`generateOfx` are embedded from `src/index.js`.

External date libraries (moment.js, chrono-node) are modelled abstractly: a
`Moment` is either invalid or a valid instant on an integer time line, and the
two parsers are supplied by a `DateEnv` the theorems quantify over.  All
moment comparison operators return `false` as soon as one operand is invalid,
which is moment.js's documented behaviour.
-/

namespace NubankOfx

/-- Model of a moment.js value: invalid, or a valid instant on an integer
time line (finer than calendar days, so that "now" can sit strictly between
today's midnight and tomorrow's midnight). -/
inductive Moment where
  | invalid : Moment
  | valid : Int → Moment
deriving DecidableEq, Repr

/-- Model of `a.isSameOrAfter(b)`: false whenever either side is invalid. -/
def Moment.isSameOrAfter : Moment → Moment → Bool
  | .valid a, .valid b => decide (b ≤ a)
  | _, _ => false

/-- Model of `a.isSameOrBefore(b)`: false whenever either side is invalid. -/
def Moment.isSameOrBefore : Moment → Moment → Bool
  | .valid a, .valid b => decide (a ≤ b)
  | _, _ => false

/-- Model of `a.isBefore(b)`: false whenever either side is invalid. -/
def Moment.isBefore : Moment → Moment → Bool
  | .valid a, .valid b => decide (a < b)
  | _, _ => false

/-- Abstract parsing environment standing for the two external date parsers:
`momentParse s` models `moment(s)` and `chronoParse s` models
`moment(chrono.parseDate(s))` (invalid when chrono yields `null`). -/
structure DateEnv where
  momentParse : String → Moment
  chronoParse : String → Moment

/-- Embedding of `parseDate` from `stuff.js`: try the strict moment parse,
and when the resulting moment is invalid fall back to the permissive chrono
phrase parser.  No error is ever raised: an unparseable text yields an
invalid moment. -/
def parseDate (env : DateEnv) (text : String) : Moment :=
  match env.momentParse text with
  | .valid t => .valid t
  | .invalid => env.chronoParse text

/-- Embedding of `makeLowerDateBoundary` from `stuff.js`. -/
def makeLowerDateBoundary (env : DateEnv) (spec : String) :
    String → String → Bool :=
  if spec = "forever" then
    fun _ _ => true
  else if spec = "open" then
    let today := parseDate env "today"
    fun dt billState => (env.momentParse dt).isSameOrAfter today || billState == "open"
  else
    let specDate := parseDate env spec
    fun dt _ => (env.momentParse dt).isSameOrAfter specDate

/-- Embedding of `makeUpperDateBoundary` from `stuff.js`. -/
def makeUpperDateBoundary (env : DateEnv) (spec : String) :
    String → String → Bool :=
  if spec = "forever" then
    fun _ _ => true
  else if spec = "open" then
    let today := parseDate env "today"
    fun dt billState => (env.momentParse dt).isSameOrBefore today || billState == "open"
  else
    let specDate := parseDate env spec
    fun dt _ => (env.momentParse dt).isBefore specDate

/-- Embedding of `createDateFilter` from `stuff.js`: conjunction of the lower
boundary built from `since` and the upper boundary built from `untilSpec`. -/
def createDateFilter (env : DateEnv) (since untilSpec : String) :
    String → String → Bool :=
  let lowerBoundary := makeLowerDateBoundary env since
  let upperBoundary := makeUpperDateBoundary env untilSpec
  fun dt billState => lowerBoundary dt billState && upperBoundary dt billState

/-- Concrete parsing environment used by the witnesses: a fixed calendar
around 2020-06-15, with today's midnight at instant 1000, chrono's resolution
of "today" at instant 1200, "now" at instant 1700 and tomorrow's midnight at
instant 2440.  Every other string is unparseable for both parsers. -/
def testEnv : DateEnv where
  momentParse s :=
    if s = "1900-01-01" then .valid 0
    else if s = "2020-06-15" then .valid 1000
    else if s = "2020-06-16" then .valid 2440
    else .invalid
  chronoParse s :=
    if s = "today" then .valid 1200
    else if s = "now" then .valid 1700
    else .invalid

/-- Comparison with an invalid moment on the right is always false. -/
theorem Moment.isSameOrAfter_invalid_right (m : Moment) :
    m.isSameOrAfter .invalid = false := by
  cases m <;> rfl

/-- Strict comparison with an invalid moment on the right is always false. -/
theorem Moment.isBefore_invalid_right (m : Moment) :
    m.isBefore .invalid = false := by
  cases m <;> rfl

/-- Claim C6: the filter built from `("forever", "forever")` accepts every
pair of input strings, including unparseable garbage dates and arbitrary
bill-state strings, in any parsing environment. -/
theorem claim_C6_forever_forever_accepts_everything
    (env : DateEnv) (dt s : String) :
    createDateFilter env "forever" "forever" dt s = true := by
  simp [createDateFilter, makeLowerDateBoundary, makeUpperDateBoundary]

/-- Claim C1: with `(since, until) = ("open", "forever")` the filter accepts
every pair whose bill state is `"open"` regardless of the date string, and a
pair with any other bill state exactly when its date parses to an instant on
or after the resolved "today" instant. -/
theorem claim_C1_open_forever_filter
    (env : DateEnv) (t0 : Int) (h : parseDate env "today" = .valid t0)
    (dt s : String) :
    (s = "open" → createDateFilter env "open" "forever" dt s = true) ∧
    (s ≠ "open" →
      (createDateFilter env "open" "forever" dt s = true ↔
        ∃ t : Int, env.momentParse dt = .valid t ∧ t0 ≤ t)) := by
  have hfilter : createDateFilter env "open" "forever" dt s =
      ((env.momentParse dt).isSameOrAfter (Moment.valid t0) || s == "open") := by
    simp [createDateFilter, makeLowerDateBoundary, makeUpperDateBoundary, h]
  constructor
  · intro hs
    subst hs
    simp [hfilter]
  · intro hs
    rw [hfilter]
    cases hdt : env.momentParse dt with
    | invalid => simp [Moment.isSameOrAfter, hs]
    | valid t => simp [Moment.isSameOrAfter, hs]

/-- Concrete instantiation of the C1 theorem in the fixed test environment:
its hypothesis holds there, and both conclusions are discharged for the
date `"1900-01-01"` with bill state `"whatever"`. -/
theorem claim_C1_witness :
    parseDate testEnv "today" = .valid 1200 ∧
    ((("whatever" : String) = "open" →
        createDateFilter testEnv "open" "forever" "1900-01-01" "whatever" = true) ∧
      (("whatever" : String) ≠ "open" →
        (createDateFilter testEnv "open" "forever" "1900-01-01" "whatever" = true ↔
          ∃ t : Int, testEnv.momentParse "1900-01-01" = .valid t ∧ 1200 ≤ t))) :=
  ⟨by decide, claim_C1_open_forever_filter testEnv 1200 (by decide) "1900-01-01" "whatever"⟩

/-- Claim C5: with `(since, until) = ("forever", "now")`, in any environment
where `"now"` resolves to an instant lying strictly between today's instant
and tomorrow's instant, every date strictly before today is accepted for any
bill state, today's date with bill state `"open"` is accepted, and tomorrow's
date with bill state `"open"` is rejected. -/
theorem claim_C5_forever_now_filter
    (env : DateEnv) (tNow tToday tTom : Int)
    (hNow : parseDate env "now" = .valid tNow)
    (h1 : tToday < tNow) (h2 : tNow < tTom) :
    (∀ dt s t, env.momentParse dt = .valid t → t < tToday →
        createDateFilter env "forever" "now" dt s = true) ∧
    (∀ dtT, env.momentParse dtT = .valid tToday →
        createDateFilter env "forever" "now" dtT "open" = true) ∧
    (∀ dtM, env.momentParse dtM = .valid tTom →
        createDateFilter env "forever" "now" dtM "open" = false) := by
  have hfilter : ∀ dt s, createDateFilter env "forever" "now" dt s =
      (env.momentParse dt).isBefore (Moment.valid tNow) := by
    intro dt s
    simp [createDateFilter, makeLowerDateBoundary, makeUpperDateBoundary, hNow]
  refine ⟨?_, ?_, ?_⟩
  · intro dt s t hdt ht
    rw [hfilter, hdt]
    simp [Moment.isBefore]
    omega
  · intro dtT hdt
    rw [hfilter, hdt]
    simp [Moment.isBefore]
    omega
  · intro dtM hdt
    rw [hfilter, hdt]
    simp [Moment.isBefore]
    omega

/-- Concrete instantiation of the C5 theorem in the fixed test environment:
the past date `"1900-01-01"` is accepted for an arbitrary state, today's
date with state `"open"` is accepted, and tomorrow's date with state
`"open"` is rejected. -/
theorem claim_C5_witness :
    (parseDate testEnv "now" = .valid 1700 ∧ (1000 : Int) < 1700 ∧ (1700 : Int) < 2440) ∧
    createDateFilter testEnv "forever" "now" "1900-01-01" "whatever" = true ∧
    createDateFilter testEnv "forever" "now" "2020-06-15" "open" = true ∧
    createDateFilter testEnv "forever" "now" "2020-06-16" "open" = false :=
  ⟨⟨by decide, by decide, by decide⟩,
    (claim_C5_forever_now_filter testEnv 1700 1000 2440 (by decide) (by decide)
        (by decide)).1 "1900-01-01" "whatever" 0 (by decide) (by decide),
    (claim_C5_forever_now_filter testEnv 1700 1000 2440 (by decide) (by decide)
        (by decide)).2.1 "2020-06-15" (by decide),
    (claim_C5_forever_now_filter testEnv 1700 1000 2440 (by decide) (by decide)
        (by decide)).2.2 "2020-06-16" (by decide)⟩

/-- Claim C4 fails as stated: `"blorp"` is rejected by both parsing
strategies of the fixed test environment, yet no error of any kind results —
`parseDate` silently returns an invalid moment and both boundary
constructors still return a total predicate (which rejects the sample
inputs), rather than producing an `InvalidDateSpec` error. -/
theorem claim_C4_counterexample :
    testEnv.momentParse "blorp" = Moment.invalid ∧
    testEnv.chronoParse "blorp" = Moment.invalid ∧
    parseDate testEnv "blorp" = Moment.invalid ∧
    makeLowerDateBoundary testEnv "blorp" "2020-06-15" "open" = false ∧
    makeUpperDateBoundary testEnv "blorp" "2020-06-15" "open" = false := by
  decide

/-- Claim C4 as amended: a non-reserved boundary spec is parsed first with
the strict calendar parser and, when that yields an invalid moment, with the
permissive phrase parser; when both strategies fail no error is raised — the
boundary is silently constructed around the invalid moment and rejects every
`(date, billState)` pair. -/
theorem claim_C4_parse_fallback_silent_boundary
    (env : DateEnv) (text spec : String) (t : Int)
    (hs1 : spec ≠ "forever") (hs2 : spec ≠ "open")
    (hfail : parseDate env spec = Moment.invalid) :
    (env.momentParse text = .valid t → parseDate env text = .valid t) ∧
    (env.momentParse text = .invalid → parseDate env text = env.chronoParse text) ∧
    (∀ dt s, makeLowerDateBoundary env spec dt s = false ∧
      makeUpperDateBoundary env spec dt s = false) := by
  refine ⟨?_, ?_, ?_⟩
  · intro hv
    simp [parseDate, hv]
  · intro hv
    simp [parseDate, hv]
  · intro dt s
    constructor
    · simp [makeLowerDateBoundary, hs1, hs2, hfail, Moment.isSameOrAfter_invalid_right]
    · simp [makeUpperDateBoundary, hs1, hs2, hfail, Moment.isBefore_invalid_right]

/-- Concrete instantiation of the amended C4 theorem: in the fixed test
environment the spec `"blorp"` is not a reserved token, fails both parsing
strategies, and the resulting boundaries reject a sample pair; the strict
parse of `"2020-06-15"` succeeds without consulting the fallback. -/
theorem claim_C4_witness :
    (("blorp" : String) ≠ "forever" ∧ ("blorp" : String) ≠ "open" ∧
      parseDate testEnv "blorp" = Moment.invalid ∧
      testEnv.momentParse "2020-06-15" = .valid 1000) ∧
    parseDate testEnv "2020-06-15" = .valid 1000 ∧
    makeLowerDateBoundary testEnv "blorp" "1900-01-01" "x" = false ∧
    makeUpperDateBoundary testEnv "blorp" "1900-01-01" "x" = false :=
  ⟨⟨by decide, by decide, by decide, by decide⟩,
    (claim_C4_parse_fallback_silent_boundary testEnv "2020-06-15" "blorp" 1000
        (by decide) (by decide) (by decide)).1 (by decide),
    ((claim_C4_parse_fallback_silent_boundary testEnv "2020-06-15" "blorp" 1000
        (by decide) (by decide) (by decide)).2.2 "1900-01-01" "x").1,
    ((claim_C4_parse_fallback_silent_boundary testEnv "2020-06-15" "blorp" 1000
        (by decide) (by decide) (by decide)).2.2 "1900-01-01" "x").2⟩

/-- Left-pad a natural number below 100 to two decimal digits. -/
def pad2 (n : Nat) : String :=
  if n < 10 then "0" ++ toString n else toString n

/-- Left-pad a natural number below 10000 to four decimal digits. -/
def pad4 (n : Nat) : String :=
  if n < 10 then "000" ++ toString n
  else if n < 100 then "00" ++ toString n
  else if n < 1000 then "0" ++ toString n
  else toString n

/-- Decimal rendering of the exact value `n / 100` with two decimal places:
the JavaScript expression `(n / 100).toFixed(2)` for an integer number of
minor units `n` (the division is exact to two decimals, so no rounding
occurs). -/
def toFixed2ofCents (n : Int) : String :=
  let a := n.natAbs
  let s := toString (a / 100) ++ "." ++ pad2 (a % 100)
  if n < 0 then "-" ++ s else s

/-- Numeric value of a list of decimal digit characters. -/
def natOfDigits (cs : List Char) : Nat :=
  cs.foldl (fun acc c => acc * 10 + (c.toNat - 48)) 0

/-- Parse a non-negative decimal string of the canonical `toFixed(2)` shape
`digits.dd` into its count of hundredths; `none` for any other shape. -/
def centsOfDigits (cs : List Char) : Option Nat :=
  match cs.takeWhile (·.isDigit), cs.dropWhile (·.isDigit) with
  | [], _ => none
  | ip, ['.', a, b] =>
    if a.isDigit && b.isDigit then
      some (natOfDigits ip * 100 + (a.toNat - 48) * 10 + (b.toNat - 48))
    else none
  | _, _ => none

/-- Model of JavaScript's numeric coercion of a canonical two-decimal amount
string: the signed count of hundredths it denotes, or `none` (standing for
`NaN`) when the string is not of that shape. -/
def centsOfString (s : String) : Option Int :=
  match s.data with
  | '-' :: rest => (centsOfDigits rest).map (fun n => -(n : Int))
  | cs => (centsOfDigits cs).map (fun n => (n : Int))

/-- Round `n / d` to the nearest integer, ties away from zero; models the
rounding `toFixed` performs (the theorems below only evaluate it away from
exact ties, where every rounding convention agrees). -/
def roundHalfAwayDiv (n : Int) (d : Nat) : Int :=
  if n < 0 then -((((-n).toNat + d / 2) / d : Nat) : Int)
  else (((n.toNat + d / 2) / d : Nat) : Int)

/-- Embedding of the `TRNAMT` interpolation of `ofxItem` in `src/index.js`:
`((-1) * amount / 100).toFixed(2)` applied to the already-normalized amount
STRING, which JavaScript first coerces to a number (here: to a count of
hundredths), then negates, divides by 100 again and reformats to two decimal
places.  An uncoercible string yields `"NaN"`, as in JavaScript. -/
def trnamtField (s : String) : String :=
  match centsOfString s with
  | some c => toFixed2ofCents (roundHalfAwayDiv (-c) 100)
  | none => "NaN"

/-- Calendar date triple. -/
structure YMD where
  year : Nat
  month : Nat
  day : Nat
deriving DecidableEq

/-- Numeric value of a decimal digit character. -/
def digit (c : Char) : Nat := c.toNat - 48

/-- Model of `moment(text)` restricted to strict ISO `YYYY-MM-DD` calendar
dates with plausible month and day ranges; anything else is an invalid
date. -/
def parseISODate (s : String) : Option YMD :=
  match s.data with
  | [y1, y2, y3, y4, '-', m1, m2, '-', d1, d2] =>
    if y1.isDigit && y2.isDigit && y3.isDigit && y4.isDigit
        && m1.isDigit && m2.isDigit && d1.isDigit && d2.isDigit then
      let y := digit y1 * 1000 + digit y2 * 100 + digit y3 * 10 + digit y4
      let m := digit m1 * 10 + digit m2
      let d := digit d1 * 10 + digit d2
      if 1 ≤ m && m ≤ 12 && 1 ≤ d && d ≤ 31 then some ⟨y, m, d⟩ else none
    else none
  | _ => none

/-- Format a calendar date as `YYYYMMDD`. -/
def fmtYYYYMMDD (d : YMD) : String :=
  pad4 d.year ++ pad2 d.month ++ pad2 d.day

/-- Model of `moment(date).format('YYYYMMDD')`: format the parsed calendar
date, or the literal moment output `"Invalid date"` when parsing fails. -/
def momentFormatYYYYMMDD (s : String) : String :=
  match parseISODate s with
  | some d => fmtYYYYMMDD d
  | none => "Invalid date"

/-- Embedding of the bracketed GMT-offset interpolation
`timezoneOffset / 60 * -1`; integer division here coincides with the exact
JavaScript real division whenever 60 divides the offset (the only case the
theorems use). -/
def tzField (tz : Int) : String :=
  toString (tz / 60 * -1)

/-- Raw bill line item as supplied by the fetch collaborator. -/
structure RawLineItem where
  id : String
  title : String
  amount : Int
  post_date : String
deriving DecidableEq

/-- The `(calendar date string, timezone offset in minutes)` pair attached to
every canonical charge. -/
structure ChargeDate where
  date : String
  timezoneOffset : Int
deriving DecidableEq

/-- Canonical charge produced by `toItem` in `src/index.js`. -/
structure Item where
  id : String
  date : ChargeDate
  memo : String
  title : String
  amount : String
  shortid : String
deriving DecidableEq

/-- Embedding of `toItem` from `src/index.js`.  The module-level flag
`shouldIncludeUid` and the external short-hash function `sh.unique` are
passed explicitly.  The amount interpolation `((-1) * amount / 100)
.toFixed(2)` is the exact two-decimal rendering of `(-1 * amount) / 100`. -/
def toItem (shouldIncludeUid : Bool) (hash : String → String)
    (timezoneOffset : Int) (raw : RawLineItem) : Item :=
  let shortid := hash raw.id
  let memo := if !shouldIncludeUid then raw.title
    else "#" ++ shortid ++ " - " ++ raw.title
  { id := raw.id
    date := { date := raw.post_date, timezoneOffset := timezoneOffset }
    memo := memo
    title := raw.title
    amount := toFixed2ofCents (-1 * raw.amount)
    shortid := shortid }

/-- Canonical charge produced by `asCharge` in the shipped revision of the
exporter (the compiled `dist/main.js` and its source): the amount is
`(amount / 100).toFixed(2)` with no negation. -/
structure Charge where
  id : String
  title : String
  date : ChargeDate
  amount : String
  billState : String
deriving DecidableEq

/-- Embedding of `asCharge` from the shipped revision of the exporter. -/
def asCharge (raw : RawLineItem) (billState : String)
    (timezoneOffset : Int) : Charge :=
  { id := raw.id
    title := raw.title
    date := { date := raw.post_date, timezoneOffset := timezoneOffset }
    amount := toFixed2ofCents raw.amount
    billState := billState }

/-- Embedding of `ofxItem` from `src/index.js`: one `STMTTRN` block. -/
def ofxItem (it : Item) : String :=
  "\n<STMTTRN>\n<TRNTYPE>DEBIT\n<DTPOSTED>"
    ++ momentFormatYYYYMMDD it.date.date
    ++ "000000[" ++ tzField it.date.timezoneOffset ++ ":GMT]\n<TRNAMT>"
    ++ trnamtField it.amount
    ++ "\n<FITID>" ++ it.id ++ "</FITID>\n<MEMO>" ++ it.memo
    ++ "</MEMO>\n</STMTTRN>\n"

/-- Fixed document text of `generateOfx` before the interpolated charge
blocks: header block, sign-on block and the statement wrapper up to and
including the opening `BANKTRANLIST` line. -/
def ofxDocHead : String :=
  "\nOFXHEADER:100\nDATA:OFXSGML\nVERSION:102\nSECURITY:NONE\nENCODING:USASCII\nCHARSET:1252\nCOMPRESSION:NONE\nOLDFILEUID:NONE\nNEWFILEUID:NONE\n\n<OFX>\n<SIGNONMSGSRSV1>\n<SONRS>\n<STATUS>\n<CODE>0\n<SEVERITY>INFO\n</STATUS>\n\n<LANGUAGE>POR\n</SONRS>\n</SIGNONMSGSRSV1>\n\n<CREDITCARDMSGSRSV1>\n<CCSTMTTRNRS>\n<TRNUID>1001\n<STATUS>\n<CODE>0\n<SEVERITY>INFO\n</STATUS>\n\n<CCSTMTRS>\n<CURDEF>BRL\n<CCACCTFROM>\n<ACCTID>nubank-ofx-preview\n</CCACCTFROM>\n\n<BANKTRANLIST>\n"

/-- Fixed document text of `generateOfx` after the interpolated charge
blocks. -/
def ofxDocTail : String :=
  "\n</BANKTRANLIST>\n\n</CCSTMTRS>\n</CCSTMTTRNRS>\n</CREDITCARDMSGSRSV1>\n</OFX>\n"

/-- Embedding of `generateOfx` from `src/index.js`: the fixed template with
`charges.map(ofxItem).join('\n')` spliced into the transaction list. -/
def generateOfx (charges : List Item) : String :=
  ofxDocHead ++ String.intercalate "\n" (charges.map ofxItem) ++ ofxDocTail

/-- Deterministic stand-in for the external short-hash `sh.unique`. -/
def testHash (s : String) : String :=
  "h" ++ toString s.length

/-- Sample raw line item used by the concrete evaluations. -/
def sampleRaw : RawLineItem :=
  { id := "abc123"
    title := "Coffee Shop"
    amount := 12345
    post_date := "2018-05-12" }

/-- Sample canonical charge used by the concrete evaluations. -/
def sampleItem : Item :=
  { id := "abc123"
    date := { date := "2018-05-12", timezoneOffset := 180 }
    memo := "Coffee Shop"
    title := "Coffee Shop"
    amount := "123.45"
    shortid := "h6" }

/-- Claim C2 fails on `toItem` in `src/index.js`: normalizing the raw minor
unit amount 12345 produces the canonical amount string `"-123.45"` — the
negation is applied already during normalization — not the positive
`"123.45"` the claim states.  The shipped revision's normalizer `asCharge`
does produce `"123.45"`, confirming the positive convention as the
intent. -/
theorem claim_C2_toItem_negates_amount :
    (toItem false testHash 180 sampleRaw).amount = "-123.45" ∧
    (toItem false testHash 180 sampleRaw).amount ≠ "123.45" ∧
    (asCharge sampleRaw "open" 180).amount = "123.45" := by
  decide

/-- Claim C3 fails on `ofxItem` in `src/index.js`: for the charge normalized
from raw amount 12345 the rendered `TRNAMT` is `"1.23"` — `ofxItem`
re-applies the negate-and-divide-by-100 conversion to the already-converted
amount string — not the `"-123.45"` the claim states. -/
theorem claim_C3_trnamt_double_conversion :
    ofxItem (toItem false testHash 180 sampleRaw) =
      "\n<STMTTRN>\n<TRNTYPE>DEBIT\n<DTPOSTED>20180512000000[-3:GMT]\n<TRNAMT>1.23\n<FITID>abc123</FITID>\n<MEMO>Coffee Shop</MEMO>\n</STMTTRN>\n" ∧
    trnamtField (toItem false testHash 180 sampleRaw).amount ≠ "-123.45" := by
  decide

/-- Claim C7: for a charge whose date string is a valid calendar date and
whose timezone offset is a whole number `60 * k` of minutes, the rendered
block's `DTPOSTED` field is the date formatted as `YYYYMMDD`, then the
literal `000000`, then the bracketed offset `-k` suffixed `:GMT`. -/
theorem claim_C7_dtposted_format
    (it : Item) (d : YMD) (k : Int)
    (hdate : parseISODate it.date.date = some d)
    (htz : it.date.timezoneOffset = 60 * k) :
    ofxItem it =
      "\n<STMTTRN>\n<TRNTYPE>DEBIT\n<DTPOSTED>"
        ++ fmtYYYYMMDD d ++ "000000[" ++ toString (-k) ++ ":GMT]\n<TRNAMT>"
        ++ trnamtField it.amount
        ++ "\n<FITID>" ++ it.id ++ "</FITID>\n<MEMO>" ++ it.memo
        ++ "</MEMO>\n</STMTTRN>\n" := by
  have h60 : (60 : Int) * k / 60 * -1 = -k := by
    rw [Int.mul_ediv_cancel_left _ (by norm_num)]
    omega
  simp [ofxItem, momentFormatYYYYMMDD, hdate, tzField, htz, h60]

/-- Concrete instantiation of the C7 theorem: the sample charge dated
`2018-05-12` with offset 180 minutes renders `DTPOSTED` as
`20180512000000[-3:GMT]`. -/
theorem claim_C7_witness :
    (parseISODate sampleItem.date.date = some ⟨2018, 5, 12⟩ ∧
      sampleItem.date.timezoneOffset = 60 * 3) ∧
    ofxItem sampleItem =
      "\n<STMTTRN>\n<TRNTYPE>DEBIT\n<DTPOSTED>"
        ++ fmtYYYYMMDD ⟨2018, 5, 12⟩ ++ "000000[" ++ toString (-(3 : Int)) ++ ":GMT]\n<TRNAMT>"
        ++ trnamtField sampleItem.amount
        ++ "\n<FITID>" ++ sampleItem.id ++ "</FITID>\n<MEMO>" ++ sampleItem.memo
        ++ "</MEMO>\n</STMTTRN>\n" :=
  ⟨⟨by decide, by decide⟩,
    claim_C7_dtposted_format sampleItem ⟨2018, 5, 12⟩ 3 (by decide) (by decide)⟩

/-- Claim C8: with the include-unique-id flag set, the memo of a normalized
charge is `#`, the short hash of its id, ` - `, then its title; with the
flag unset the memo is exactly the title. -/
theorem claim_C8_memo_format
    (hash : String → String) (tz : Int) (raw : RawLineItem) :
    (toItem true hash tz raw).memo = "#" ++ hash raw.id ++ " - " ++ raw.title ∧
    (toItem false hash tz raw).memo = raw.title := by
  constructor <;> rfl

set_option maxRecDepth 8192 in
/-- Claim C9: rendering the empty charge sequence yields the complete fixed
OFX document — header, sign-on block and statement wrapper — with an empty
`BANKTRANLIST`. -/
theorem claim_C9_empty_sequence_renders_full_document :
    generateOfx [] =
      "\nOFXHEADER:100\nDATA:OFXSGML\nVERSION:102\nSECURITY:NONE\nENCODING:USASCII\nCHARSET:1252\nCOMPRESSION:NONE\nOLDFILEUID:NONE\nNEWFILEUID:NONE\n\n<OFX>\n<SIGNONMSGSRSV1>\n<SONRS>\n<STATUS>\n<CODE>0\n<SEVERITY>INFO\n</STATUS>\n\n<LANGUAGE>POR\n</SONRS>\n</SIGNONMSGSRSV1>\n\n<CREDITCARDMSGSRSV1>\n<CCSTMTTRNRS>\n<TRNUID>1001\n<STATUS>\n<CODE>0\n<SEVERITY>INFO\n</STATUS>\n\n<CCSTMTRS>\n<CURDEF>BRL\n<CCACCTFROM>\n<ACCTID>nubank-ofx-preview\n</CCACCTFROM>\n\n<BANKTRANLIST>\n\n</BANKTRANLIST>\n\n</CCSTMTRS>\n</CCSTMTTRNRS>\n</CREDITCARDMSGSRSV1>\n</OFX>\n" := by
  rfl

set_option maxRecDepth 8192 in
/-- Claim C10: the rendered block list has exactly one `STMTTRN` block per
input charge, the block at every position is the rendering of the charge at
the same position, and the whole document is the fixed text around those
blocks joined in input order right after the `BANKTRANLIST` opening. -/
theorem claim_C10_one_block_per_charge_in_order (charges : List Item) :
    (charges.map ofxItem).length = charges.length ∧
    (∀ i : Fin charges.length,
      (charges.map ofxItem).get ⟨i.val, by simp⟩ =
        ofxItem (charges.get i)) ∧
    generateOfx charges =
      ofxDocHead ++ String.intercalate "\n" (charges.map ofxItem) ++ ofxDocTail ∧
    (∃ pre, ofxDocHead = pre ++ "<BANKTRANLIST>\n") := by
  refine ⟨List.length_map _ _, ?_, rfl, ?_⟩
  · intro i
    simp [List.getElem_map]
  · exact ⟨"\nOFXHEADER:100\nDATA:OFXSGML\nVERSION:102\nSECURITY:NONE\nENCODING:USASCII\nCHARSET:1252\nCOMPRESSION:NONE\nOLDFILEUID:NONE\nNEWFILEUID:NONE\n\n<OFX>\n<SIGNONMSGSRSV1>\n<SONRS>\n<STATUS>\n<CODE>0\n<SEVERITY>INFO\n</STATUS>\n\n<LANGUAGE>POR\n</SONRS>\n</SIGNONMSGSRSV1>\n\n<CREDITCARDMSGSRSV1>\n<CCSTMTTRNRS>\n<TRNUID>1001\n<STATUS>\n<CODE>0\n<SEVERITY>INFO\n</STATUS>\n\n<CCSTMTRS>\n<CURDEF>BRL\n<CCACCTFROM>\n<ACCTID>nubank-ofx-preview\n</CCACCTFROM>\n\n", by rfl⟩

end NubankOfx
